import Mathlib

/-!
Verification of the harvester-mcp-server resource formatting engine.

The Go source renders Kubernetes/Harvester resource documents
(`unstructured.Unstructured`, i.e. dynamically-typed nested maps) into text.
We embed the documents as association-list trees (`JValue`), the nested
field accessors of `k8s.io/apimachinery`'s `unstructured` package, and each
formatter as the ordered list of chunks written to its `strings.Builder`;
the function's string result is `String.join` of those chunks.

Association lists model Go maps together with one enumeration order of
their entries (Go leaves map iteration order unspecified; where a claim
depends on that order this is made explicit in the theorems).
-/

/-- A JSON-like value as decoded into `map[string]interface{}` by the
Kubernetes unstructured client: strings, int64 numbers, booleans, nil,
ordered lists, and objects (a Go map presented in one enumeration order). -/
inductive JValue where
  | null
  | str (s : String)
  | int (n : Int)
  | bool (b : Bool)
  | arr (items : List JValue)
  | obj (fields : List (String × JValue))

/-- A resource document body, the `res.Object` map of an
`unstructured.Unstructured`. -/
abbrev UObj := List (String × JValue)

/-- First-match association lookup; Go maps have unique keys, so this is
map indexing on the enumerated entries. -/
def assocFind {α : Type} : List (String × α) → String → Option α
  | [], _ => none
  | (k, v) :: rest, key => if k = key then some v else assocFind rest key

/-- `unstructured.NestedFieldNoCopy`: walk a path of map keys. -/
def JValue.nested : JValue → List String → Option JValue
  | v, [] => some v
  | .obj fs, k :: ks =>
    match assocFind fs k with
    | some v => JValue.nested v ks
    | none => none
  | _, _ :: _ => none

/-- `unstructured.NestedString`: the path must resolve to a string. -/
def nestedString (o : UObj) (path : List String) : Option String :=
  match JValue.nested (.obj o) path with
  | some (.str s) => some s
  | _ => none

/-- `unstructured.NestedInt64`: the path must resolve to an int64. -/
def nestedInt64 (o : UObj) (path : List String) : Option Int :=
  match JValue.nested (.obj o) path with
  | some (.int n) => some n
  | _ => none

/-- `unstructured.NestedBool`: the path must resolve to a bool. -/
def nestedBool (o : UObj) (path : List String) : Option Bool :=
  match JValue.nested (.obj o) path with
  | some (.bool b) => some b
  | _ => none

/-- `unstructured.NestedSlice`: the path must resolve to a list. -/
def nestedSlice (o : UObj) (path : List String) : Option (List JValue) :=
  match JValue.nested (.obj o) path with
  | some (.arr items) => some items
  | _ => none

/-- `unstructured.NestedMap`: the path must resolve to an object. -/
def nestedMap (o : UObj) (path : List String) : Option UObj :=
  match JValue.nested (.obj o) path with
  | some (.obj fs) => some fs
  | _ => none

/-- All object entries must carry string values
(`unstructured.NestedStringMap` fails on any non-string value). -/
def allStringPairs : List (String × JValue) → Option (List (String × String))
  | [] => some []
  | (k, .str s) :: rest => (allStringPairs rest).map (fun t => (k, s) :: t)
  | _ => none

/-- `unstructured.NestedStringMap`. -/
def nestedStringMap (o : UObj) (path : List String) :
    Option (List (String × String)) :=
  match nestedMap o path with
  | some fs => allStringPairs fs
  | none => none

/-- All list elements must be strings (`unstructured.NestedStringSlice`). -/
def allStrings : List JValue → Option (List String)
  | [] => some []
  | .str s :: rest => (allStrings rest).map (fun t => s :: t)
  | _ => none

/-- `unstructured.NestedStringSlice`. -/
def nestedStringSlice (o : UObj) (path : List String) : Option (List String) :=
  match nestedSlice o path with
  | some items => allStrings items
  | none => none

/-- `getNestedString` of resources.go: empty string when absent or
not a string. -/
def getNestedString (o : UObj) (path : List String) : String :=
  (nestedString o path).getD ""

/-- `getNestedInt64` of resources.go: 0 when absent. -/
def getNestedInt64 (o : UObj) (path : List String) : Int :=
  (nestedInt64 o path).getD 0

/-- `getNestedBool` of resources.go: false when absent. -/
def getNestedBool (o : UObj) (path : List String) : Bool :=
  (nestedBool o path).getD false

/-- `res.GetName()`. -/
def getName (o : UObj) : String := getNestedString o ["metadata", "name"]

/-- `res.GetNamespace()`. -/
def getNamespace (o : UObj) : String :=
  getNestedString o ["metadata", "namespace"]

/-- `res.GetKind()`. -/
def getKind (o : UObj) : String := getNestedString o ["kind"]

/-- `res.GetLabels()`: the `metadata.labels` string map, empty when absent
or when any value is not a string. -/
def getLabels (o : UObj) : List (String × String) :=
  (nestedStringMap o ["metadata", "labels"]).getD []

/-- `res.GetAnnotations()`. -/
def getAnnots (o : UObj) : List (String × String) :=
  (nestedStringMap o ["metadata", "annotations"]).getD []

/-- The Go side parses `metadata.creationTimestamp` as RFC 3339 and
re-renders it with `Format(time.RFC3339)`; on RFC 3339-normal inputs this
round-trip is the identity, and no claim below inspects the rendering of
non-normal timestamps, so the field is carried through verbatim. -/
def rfc3339Render (s : String) : String := s

/-- `res.GetCreationTimestamp().Format(time.RFC3339)`. -/
def formatCreation (o : UObj) : String :=
  rfc3339Render (getNestedString o ["metadata", "creationTimestamp"])

mutual
/-- Go `fmt.Sprintf("%v", x)` on a decoded JSON value: strings print bare,
numbers and booleans in their decimal/`true`/`false` forms, slices as
space-separated brackets, maps as `map[k:v ...]` over the enumerated
entries. (Go's fmt sorts map keys; none of the claims inspect the interior
of a `%v`-printed map, so the enumerated order is kept.) -/
def goFmtV : JValue → String
  | .null => "<nil>"
  | .str s => s
  | .int n => toString n
  | .bool b => if b then "true" else "false"
  | .arr items => "[" ++ goFmtList items ++ "]"
  | .obj fs => "map[" ++ goFmtFields fs ++ "]"

def goFmtList : List JValue → String
  | [] => ""
  | [v] => goFmtV v
  | v :: rest => goFmtV v ++ " " ++ goFmtList rest

def goFmtFields : List (String × JValue) → String
  | [] => ""
  | [kv] => kv.1 ++ ":" ++ goFmtV kv.2
  | kv :: rest => kv.1 ++ ":" ++ goFmtV kv.2 ++ " " ++ goFmtFields rest
end

/-- One `"  %s: %s\n"` line per entry of a string map, as the label and
selector loops write them. -/
def kvLines (indent : String) (kvs : List (String × String)) : List String :=
  kvs.map (fun kv => indent ++ kv.1 ++ ": " ++ kv.2 ++ "\n")

/-- One `"  %s: %v\n"` line per entry of a generic map. -/
def kvLinesV (indent : String) (kvs : List (String × JValue)) : List String :=
  kvs.map (fun kv => indent ++ kv.1 ++ ": " ++ goFmtV kv.2 ++ "\n")

/-- `sub` occurs contiguously inside `s`. -/
def strHasSub (s sub : String) : Prop := sub.data <:+: s.data

instance (s sub : String) : Decidable (strHasSub s sub) :=
  List.decidableInfix sub.data s.data

/-- The `map[key] = append(map[key], item)` step of the grouping loops:
append to the group of `key`, creating it (at the end, i.e. as a fresh map
entry) when missing. -/
def insertGrouped {α : Type} (key : String) (item : α) :
    List (String × List α) → List (String × List α)
  | [] => [(key, [item])]
  | (k, xs) :: rest =>
    if k = key then (k, xs ++ [item]) :: rest
    else (k, xs) :: insertGrouped key item rest

/-- The grouping loop shared by the list formatters: partition a collection
by a string key, keeping insertion order within groups. The resulting
association list is the grouping map under one enumeration order (first
occurrence order); the counting invariants proved below are independent of
the enumeration. -/
def groupByKey {α : Type} (keyOf : α → String) (l : List α) :
    List (String × List α) :=
  l.foldl (fun acc item => insertGrouped (keyOf item) item acc) []

/-- The group bound to `k`, empty when `k` is not a key. -/
def findGroup {α : Type} : List (String × List α) → String → List α
  | [], _ => []
  | (k, xs) :: rest, key => if k = key then xs else findGroup rest key

/-! ## Pod formatter (part_004, `PodFormatter`) -/

/-- Pod status: observed phase, overridden by the reason when non-empty
(part_004 lines 20-24 and 118-122, the same computation at both sites). -/
def podStatus (o : UObj) : String :=
  let status := getNestedString o ["status", "phase"]
  let reason := getNestedString o ["status", "reason"]
  if reason ≠ "" then reason else status

/-- The container block of the Pod/Deployment detail views
(part_004 lines 59-91 and 636-668); `i` is the 1-based print index,
non-map entries are skipped by `continue`. -/
def containerChunks (i : Nat) (c : JValue) : List String :=
  match c with
  | .obj f =>
    ["  " ++ toString i ++ ". " ++ getNestedString f ["name"] ++ "\n",
     "     Image: " ++ getNestedString f ["image"] ++ "\n"]
    ++ (match nestedMap f ["resources"] with
        | some resources =>
          "     Resources:\n"
          :: ((match nestedMap resources ["limits"] with
               | some limits => kvLinesV "       Limits " limits
               | none => [])
              ++ (match nestedMap resources ["requests"] with
                  | some requests => kvLinesV "       Requests " requests
                  | none => []))
        | none => [])
    ++ ["\n"]
  | _ => []

/-- The chunks `PodFormatter.FormatResource` writes, in order. -/
def PodFormatter.FormatResourceChunks (o : UObj) : List String :=
  let nodeName := getNestedString o ["spec", "nodeName"]
  let podIP := getNestedString o ["status", "podIP"]
  let containers := (nestedSlice o ["spec", "containers"]).getD []
  ["Pod: " ++ getName o ++ "\n",
   "Namespace: " ++ getNamespace o ++ "\n",
   "Status: " ++ podStatus o ++ "\n"]
  ++ (if nodeName ≠ "" then ["Node: " ++ nodeName ++ "\n"] else [])
  ++ (if podIP ≠ "" then ["Pod IP: " ++ podIP ++ "\n"] else [])
  ++ ["Created: " ++ formatCreation o ++ "\n",
      "QoS Class: " ++ getNestedString o ["status", "qosClass"] ++ "\n"]
  ++ (if getLabels o ≠ [] then
        "\nLabels:\n" :: kvLines "  " (getLabels o)
      else [])
  ++ (if containers.isEmpty then []
      else
        "\nContainers:\n"
        :: containers.enum.flatMap (fun ic => containerChunks (ic.1 + 1) ic.2))

/-- `PodFormatter.FormatResource`. -/
def PodFormatter.FormatResource (o : UObj) : String :=
  String.join (PodFormatter.FormatResourceChunks o)

/-- Ready containers: container statuses that are maps with a true
`ready` bool (part_004 lines 125-135). -/
def countReadyContainers : List JValue → Nat
  | [] => 0
  | .obj f :: rest =>
    (if nestedBool f ["ready"] = some true then 1 else 0)
    + countReadyContainers rest
  | _ :: rest => countReadyContainers rest

/-- Total restart count over the container statuses
(part_004 lines 161-170); statuses without the field contribute 0. -/
def totalRestarts : List JValue → Int
  | [] => 0
  | .obj f :: rest => (nestedInt64 f ["restartCount"]).getD 0 + totalRestarts rest
  | _ :: rest => totalRestarts rest

/-- One pod entry of `PodFormatter.FormatResourceList`
(part_004 lines 116-174). -/
def podListEntryChunks (o : UObj) : List String :=
  let csList := (nestedSlice o ["status", "containerStatuses"]).getD []
  let containers := (nestedSlice o ["spec", "containers"]).getD []
  let nodeName := getNestedString o ["spec", "nodeName"]
  let podIP := getNestedString o ["status", "podIP"]
  ["  • " ++ getName o ++ "\n",
   "    Status: " ++ podStatus o ++ "\n",
   "    Ready: " ++ toString (countReadyContainers csList) ++ "/"
     ++ toString containers.length ++ " containers\n"]
  ++ (if nodeName ≠ "" then ["    Node: " ++ nodeName ++ "\n"] else [])
  ++ (if podIP ≠ "" then ["    IP: " ++ podIP ++ "\n"] else [])
  ++ ["    Created: " ++ formatCreation o ++ "\n",
      "    Restarts: " ++ toString (totalRestarts csList) ++ "\n",
      "\n"]

/-- One namespace group of the pod list view: header then entries then a
blank line (part_004 lines 113-177). -/
def podNsGroupChunks (g : String × List UObj) : List String :=
  ("Namespace: " ++ g.1 ++ " (" ++ toString g.2.length ++ " pods)\n")
  :: (g.2.flatMap podListEntryChunks ++ ["\n"])

/-- The chunks of `PodFormatter.FormatResourceList`: the empty collection
short-circuits to the fixed message, otherwise a count line followed by
the namespace groups. -/
def PodFormatter.FormatResourceListChunks (items : List UObj) : List String :=
  if items.isEmpty then ["No pods found in the specified namespace(s)."]
  else
    ("Found " ++ toString items.length ++ " pod(s):\n\n")
    :: (groupByKey getNamespace items).flatMap podNsGroupChunks

/-- `PodFormatter.FormatResourceList`. -/
def PodFormatter.FormatResourceList (items : List UObj) : String :=
  String.join (PodFormatter.FormatResourceListChunks items)

/-! ## Namespace document formatter (part_004, `NamespaceFormatter`) -/

/-- One namespace entry of `NamespaceFormatter.FormatResourceList`
(part_004 lines 372-385): entries are written in collection order, with
the observed phase verbatim; there is no grouping. -/
def nsDocEntryChunks (o : UObj) : List String :=
  ["• " ++ getName o ++ "\n",
   "  Status: " ++ getNestedString o ["status", "phase"] ++ "\n",
   "  Created: " ++ formatCreation o ++ "\n",
   "\n"]

/-- The chunks of `NamespaceFormatter.FormatResourceList`. -/
def NamespaceFormatter.FormatResourceListChunks (items : List UObj) :
    List String :=
  if items.isEmpty then ["No namespaces found."]
  else
    ("Found " ++ toString items.length ++ " namespace(s):\n\n")
    :: items.flatMap nsDocEntryChunks

/-- `NamespaceFormatter.FormatResourceList`. -/
def NamespaceFormatter.FormatResourceList (items : List UObj) : String :=
  String.join (NamespaceFormatter.FormatResourceListChunks items)

/-! ## Node formatter (part_004, `NodeFormatter`) -/

/-- The status loop of `NodeFormatter.FormatResource` (lines 398-417):
starting from "Unknown", scan the conditions for the first map entry whose
`type` and `status` are both strings and whose type is "Ready"; on it, set
"Ready"/"NotReady" by whether the status is "True" and break. Entries that
are not maps, lack one of the two string fields, or have another type are
passed over. -/
def nodeDetailStatus : List JValue → String
  | [] => "Unknown"
  | .obj f :: rest =>
    match nestedString f ["type"], nestedString f ["status"] with
    | some t, some s =>
      if t = "Ready" then (if s = "True" then "Ready" else "NotReady")
      else nodeDetailStatus rest
    | _, _ => nodeDetailStatus rest
  | _ :: rest => nodeDetailStatus rest

/-- The status loop of `NodeFormatter.FormatResourceList` (lines 501-520).
The Go loop re-declares `status` with `:=` inside its body, shadowing the
outer variable that is later printed: the Ready/NotReady computed inside
the loop is written to the shadowed local and discarded at `break`, so the
printed value is the loop's carried outer value, initialized to "Ready".
The scan is kept so the embedding mirrors the control flow (finding a
Ready-typed condition with a status string breaks the loop; everything
else continues), but the carried value is never reassigned. -/
def nodeListStatusLoop (outer : String) : List JValue → String
  | [] => outer
  | .obj f :: rest =>
    match nestedString f ["type"], nestedString f ["status"] with
    | some t, some _ =>
      if t = "Ready" then outer else nodeListStatusLoop outer rest
    | _, _ => nodeListStatusLoop outer rest
  | _ :: rest => nodeListStatusLoop outer rest

/-- The printed node status of the list view: the outer variable,
initialized to "Ready" and never reassigned (see `nodeListStatusLoop`). -/
def nodeListStatus (conditions : List JValue) : String :=
  nodeListStatusLoop "Ready" conditions

/-- One condition line of the node detail view (lines 422-436). -/
def nodeCondDetailChunks (c : JValue) : List String :=
  match c with
  | .obj f =>
    let msg := getNestedString f ["message"]
    ["  " ++ getNestedString f ["type"] ++ ": "
       ++ getNestedString f ["status"] ++ "\n"]
    ++ (if msg ≠ "" then ["    Message: " ++ msg ++ "\n"] else [])
  | _ => []

/-- One address line of the node detail view (lines 442-454): written only
when both `type` and `address` are strings. -/
def nodeAddrDetailChunks (a : JValue) : List String :=
  match a with
  | .obj f =>
    match nestedString f ["type"], nestedString f ["address"] with
    | some t, some v => ["  " ++ t ++ ": " ++ v ++ "\n"]
    | _, _ => []
  | _ => []

/-- The chunks of `NodeFormatter.FormatResource` (lines 393-489). -/
def NodeFormatter.FormatResourceChunks (o : UObj) : List String :=
  let conditions := (nestedSlice o ["status", "conditions"]).getD []
  let addresses := (nestedSlice o ["status", "addresses"]).getD []
  let nodeInfo := (nestedMap o ["status", "nodeInfo"]).getD []
  let allocatable := (nestedMap o ["status", "allocatable"]).getD []
  let capacity := (nestedMap o ["status", "capacity"]).getD []
  ["Node: " ++ getName o ++ "\n",
   "Status: " ++ nodeDetailStatus conditions ++ "\n",
   "\nConditions:\n"]
  ++ conditions.flatMap nodeCondDetailChunks
  ++ (if addresses.isEmpty then []
      else "\nAddresses:\n" :: addresses.flatMap nodeAddrDetailChunks)
  ++ (if nodeInfo.isEmpty then []
      else "\nNode Info:\n" :: kvLinesV "  " nodeInfo)
  ++ (if allocatable.isEmpty then []
      else "\nAllocatable Resources:\n" :: kvLinesV "  " allocatable)
  ++ (if capacity.isEmpty then []
      else "\nCapacity:\n" :: kvLinesV "  " capacity)
  ++ ["\nCreated: " ++ formatCreation o ++ "\n"]

/-- `NodeFormatter.FormatResource`. -/
def NodeFormatter.FormatResource (o : UObj) : String :=
  String.join (NodeFormatter.FormatResourceChunks o)

/-- The address-extraction loop of the node list view (lines 523-544):
later entries of the same type overwrite earlier ones, as the Go switch
assigns on every match. The triple carries (internalIP, externalIP,
hostname). -/
def nodeAddrFold : List JValue → String × String × String → String × String × String
  | [], acc => acc
  | .obj f :: rest, acc =>
    (match nestedString f ["type"], nestedString f ["address"] with
     | some t, some v =>
       if t = "InternalIP" then nodeAddrFold rest (v, acc.2.1, acc.2.2)
       else if t = "ExternalIP" then nodeAddrFold rest (acc.1, v, acc.2.2)
       else if t = "Hostname" then nodeAddrFold rest (acc.1, acc.2.1, v)
       else nodeAddrFold rest acc
     | _, _ => nodeAddrFold rest acc)
  | _ :: rest, acc => nodeAddrFold rest acc

/-- One node entry of `NodeFormatter.FormatResourceList` (lines 499-597);
nodes are not grouped. -/
def nodeListEntryChunks (o : UObj) : List String :=
  let conditions := (nestedSlice o ["status", "conditions"]).getD []
  let addrs := nodeAddrFold ((nestedSlice o ["status", "addresses"]).getD [])
                 ("", "", "")
  let kubeletVersion :=
    getNestedString o ["status", "nodeInfo", "kubeletVersion"]
  let alloc := nestedMap o ["status", "allocatable"]
  let cpu := match alloc with
             | some m => match assocFind m "cpu" with
                         | some v => goFmtV v
                         | none => ""
             | none => ""
  let memory := match alloc with
                | some m => match assocFind m "memory" with
                            | some v => goFmtV v
                            | none => ""
                | none => ""
  ["• " ++ getName o ++ "\n",
   "  Status: " ++ nodeListStatus conditions ++ "\n"]
  ++ (if addrs.1 ≠ "" then ["  Internal IP: " ++ addrs.1 ++ "\n"] else [])
  ++ (if addrs.2.1 ≠ "" then ["  External IP: " ++ addrs.2.1 ++ "\n"] else [])
  ++ (if addrs.2.2 ≠ "" ∧ addrs.2.2 ≠ getName o then
        ["  Hostname: " ++ addrs.2.2 ++ "\n"]
      else [])
  ++ (if kubeletVersion ≠ "" then
        ["  Kubelet Version: " ++ kubeletVersion ++ "\n"]
      else [])
  ++ (if cpu ≠ "" ∨ memory ≠ "" then
        "  Allocatable:\n"
        :: ((if cpu ≠ "" then ["    CPU: " ++ cpu ++ "\n"] else [])
            ++ (if memory ≠ "" then ["    Memory: " ++ memory ++ "\n"] else []))
      else [])
  ++ ["  Created: " ++ formatCreation o ++ "\n", "\n"]

/-- The chunks of `NodeFormatter.FormatResourceList` (lines 491-600). -/
def NodeFormatter.FormatResourceListChunks (items : List UObj) : List String :=
  if items.isEmpty then ["No nodes found."]
  else
    ("Found " ++ toString items.length ++ " node(s):\n\n")
    :: items.flatMap nodeListEntryChunks

/-- `NodeFormatter.FormatResourceList`. -/
def NodeFormatter.FormatResourceList (items : List UObj) : String :=
  String.join (NodeFormatter.FormatResourceListChunks items)

/-! ## Deployment formatter (part_004, `DeploymentFormatter`) -/

/-- The replica line of the deployment detail view (lines 611-617): the
Sprintf passes `replicas` (= `spec.replicas`) for both the "desired" and
the "total" slot. -/
def deploymentDetailReplicaLine (o : UObj) : String :=
  let replicas := getNestedInt64 o ["spec", "replicas"]
  let available := getNestedInt64 o ["status", "availableReplicas"]
  let ready := getNestedInt64 o ["status", "readyReplicas"]
  let updated := getNestedInt64 o ["status", "updatedReplicas"]
  "Replicas: " ++ toString replicas ++ " desired | " ++ toString updated
    ++ " updated | " ++ toString replicas ++ " total | " ++ toString available
    ++ " available | " ++ toString ready ++ " ready\n"

/-- One condition block of the deployment detail view (lines 675-693). -/
def deployCondDetailChunks (c : JValue) : List String :=
  match c with
  | .obj f =>
    let reason := getNestedString f ["reason"]
    let msg := getNestedString f ["message"]
    ["  " ++ getNestedString f ["type"] ++ ": "
       ++ getNestedString f ["status"] ++ "\n"]
    ++ (if reason ≠ "" then ["    Reason: " ++ reason ++ "\n"] else [])
    ++ (if msg ≠ "" then ["    Message: " ++ msg ++ "\n"] else [])
  | _ => []

/-- The chunks of `DeploymentFormatter.FormatResource` (lines 605-701). -/
def DeploymentFormatter.FormatResourceChunks (o : UObj) : List String :=
  let selector := (nestedMap o ["spec", "selector", "matchLabels"]).getD []
  let containers :=
    (nestedSlice o ["spec", "template", "spec", "containers"]).getD []
  let conditions := (nestedSlice o ["status", "conditions"]).getD []
  ["Deployment: " ++ getName o ++ "\n",
   "Namespace: " ++ getNamespace o ++ "\n",
   deploymentDetailReplicaLine o,
   "Strategy: " ++ getNestedString o ["spec", "strategy", "type"] ++ "\n"]
  ++ (if selector.isEmpty then []
      else "\nSelector:\n" :: kvLinesV "  " selector)
  ++ (if containers.isEmpty then []
      else
        "\nContainers:\n"
        :: containers.enum.flatMap (fun ic => containerChunks (ic.1 + 1) ic.2))
  ++ (if conditions.isEmpty then []
      else "\nConditions:\n" :: conditions.flatMap deployCondDetailChunks)
  ++ ["\nCreated: " ++ formatCreation o ++ "\n"]

/-- `DeploymentFormatter.FormatResource`. -/
def DeploymentFormatter.FormatResource (o : UObj) : String :=
  String.join (DeploymentFormatter.FormatResourceChunks o)

/-- The replica line of a deployment list entry (lines 724-730): three
numbers, all read from the observed-state subtree (`status.*`). -/
def deploymentListReplicaLine (o : UObj) : String :=
  let available := getNestedInt64 o ["status", "availableReplicas"]
  let replicas := getNestedInt64 o ["status", "replicas"]
  let updatedReplicas := getNestedInt64 o ["status", "updatedReplicas"]
  "    Replicas: " ++ toString available ++ " available / "
    ++ toString replicas ++ " total / " ++ toString updatedReplicas
    ++ " updated\n"

/-- One image line of a deployment list entry (lines 736-746). -/
def deployImageChunks (c : JValue) : List String :=
  match c with
  | .obj f =>
    ["      " ++ getNestedString f ["name"] ++ ": "
       ++ getNestedString f ["image"] ++ "\n"]
  | _ => []

/-- One condition line of a deployment list entry (lines 753-763). -/
def deployCondListChunks (c : JValue) : List String :=
  match c with
  | .obj f =>
    ["      " ++ getNestedString f ["type"] ++ ": "
       ++ getNestedString f ["status"] ++ "\n"]
  | _ => []

/-- One deployment entry of the list view (lines 722-771). -/
def deployListEntryChunks (o : UObj) : List String :=
  let containers :=
    (nestedSlice o ["spec", "template", "spec", "containers"]).getD []
  let conditions := (nestedSlice o ["status", "conditions"]).getD []
  ["  • " ++ getName o ++ "\n", deploymentListReplicaLine o]
  ++ (if containers.isEmpty then []
      else "    Images:\n" :: containers.flatMap deployImageChunks)
  ++ (if conditions.isEmpty then []
      else "    Conditions:\n" :: conditions.flatMap deployCondListChunks)
  ++ ["    Created: " ++ formatCreation o ++ "\n", "\n"]

/-- One namespace group of the deployment list view (lines 719-774). -/
def deployNsGroupChunks (g : String × List UObj) : List String :=
  ("Namespace: " ++ g.1 ++ " (" ++ toString g.2.length ++ " deployments)\n")
  :: (g.2.flatMap deployListEntryChunks ++ ["\n"])

/-- The chunks of `DeploymentFormatter.FormatResourceList` (703-777). -/
def DeploymentFormatter.FormatResourceListChunks (items : List UObj) :
    List String :=
  if items.isEmpty then ["No deployments found in the specified namespace(s)."]
  else
    ("Found " ++ toString items.length ++ " deployment(s):\n\n")
    :: (groupByKey getNamespace items).flatMap deployNsGroupChunks

/-- `DeploymentFormatter.FormatResourceList`. -/
def DeploymentFormatter.FormatResourceList (items : List UObj) : String :=
  String.join (DeploymentFormatter.FormatResourceListChunks items)

/-! ## Virtual machine formatter (harvester_formatters.go,
`VirtualMachineFormatter`) -/

/-- The status derivation of both VM views (harvester_formatters.go lines
20-28 and 142-150, the same computation at both sites): "Running" when the
observed `status.ready` flag is true, else "Created" when `status.created`
is true, else "Unknown"; absent flags read as false via `getNestedBool`. -/
def vmStatus (o : UObj) : String :=
  let running := getNestedBool o ["status", "ready"]
  let created := getNestedBool o ["status", "created"]
  if running then "Running" else if created then "Created" else "Unknown"

/-- One volume block of the VM detail view (lines 54-85). -/
def vmVolumeDetailChunks (v : JValue) : List String :=
  match v with
  | .obj f =>
    ("  " ++ getNestedString f ["name"] ++ ":\n")
    :: (match nestedMap f ["persistentVolumeClaim"] with
        | some _ =>
          ["    Type: PersistentVolumeClaim\n",
           "    Claim Name: "
             ++ getNestedString f ["persistentVolumeClaim", "claimName"]
             ++ "\n"]
        | none =>
          match nestedMap f ["containerDisk"] with
          | some _ =>
            ["    Type: ContainerDisk\n",
             "    Image: " ++ getNestedString f ["containerDisk", "image"]
               ++ "\n"]
          | none =>
            match nestedMap f ["cloudInitNoCloud"] with
            | some ci =>
              "    Type: CloudInitNoCloud\n"
              :: ((match nestedString ci ["userData"] with
                   | some u => if u ≠ "" then ["    Has User Data: true\n"]
                               else []
                   | none => [])
                  ++ (match nestedString ci ["networkData"] with
                      | some n => if n ≠ ""
                                  then ["    Has Network Data: true\n"]
                                  else []
                      | none => []))
            | none => ["    Type: Other\n"])
  | _ => []

/-- One network block of the VM detail view (lines 92-111). -/
def vmNetworkDetailChunks (n : JValue) : List String :=
  match n with
  | .obj f =>
    ("  " ++ getNestedString f ["name"] ++ ":\n")
    :: (match nestedString f ["pod"] with
        | some p =>
          if p ≠ "" then ["    Type: Pod Network\n"]
          else match nestedMap f ["multus"] with
               | some _ =>
                 ["    Type: Multus\n",
                  "    Network Name: "
                    ++ getNestedString f ["multus", "networkName"] ++ "\n"]
               | none => ["    Type: Other\n"]
        | none =>
          match nestedMap f ["multus"] with
          | some _ =>
            ["    Type: Multus\n",
             "    Network Name: " ++ getNestedString f ["multus", "networkName"]
               ++ "\n"]
          | none => ["    Type: Other\n"])
  | _ => []

/-- The chunks of `VirtualMachineFormatter.FormatResource` (lines 14-119). -/
def VirtualMachineFormatter.FormatResourceChunks (o : UObj) : List String :=
  let running := getNestedBool o ["status", "ready"]
  let created := getNestedBool o ["status", "created"]
  let cpuCores :=
    getNestedInt64 o ["spec", "template", "spec", "domain", "cpu", "cores"]
  let memory := getNestedString o
    ["spec", "template", "spec", "domain", "resources", "requests", "memory"]
  let volumes := (nestedSlice o ["spec", "template", "spec", "volumes"]).getD []
  let networks :=
    (nestedSlice o ["spec", "template", "spec", "networks"]).getD []
  ["Virtual Machine: " ++ getName o ++ "\n",
   "Namespace: " ++ getNamespace o ++ "\n",
   "Status: " ++ vmStatus o ++ "\n",
   "Ready: " ++ (if running then "true" else "false") ++ "\n",
   "Created: " ++ (if created then "true" else "false") ++ "\n",
   "\nSpecification:\n"]
  ++ (if cpuCores > 0 then ["  CPU Cores: " ++ toString cpuCores ++ "\n"]
      else [])
  ++ (if memory ≠ "" then ["  Memory: " ++ memory ++ "\n"] else [])
  ++ (if volumes.isEmpty then []
      else "\nVolumes:\n" :: volumes.flatMap vmVolumeDetailChunks)
  ++ (if networks.isEmpty then []
      else "\nNetworks:\n" :: networks.flatMap vmNetworkDetailChunks)
  ++ ["\nCreated: " ++ formatCreation o ++ "\n"]

/-- `VirtualMachineFormatter.FormatResource`. -/
def VirtualMachineFormatter.FormatResource (o : UObj) : String :=
  String.join (VirtualMachineFormatter.FormatResourceChunks o)

/-- One volume line of a VM list entry (lines 172-192). -/
def vmVolumeListChunks (v : JValue) : List String :=
  match v with
  | .obj f =>
    let name := getNestedString f ["name"]
    match nestedMap f ["persistentVolumeClaim"] with
    | some _ =>
      ["      " ++ name ++ ": PVC "
         ++ getNestedString f ["persistentVolumeClaim", "claimName"] ++ "\n"]
    | none =>
      match nestedMap f ["containerDisk"] with
      | some _ =>
        ["      " ++ name ++ ": ContainerDisk "
           ++ getNestedString f ["containerDisk", "image"] ++ "\n"]
      | none =>
        match nestedMap f ["cloudInitNoCloud"] with
        | some _ => ["      " ++ name ++ ": CloudInit\n"]
        | none => ["      " ++ name ++ "\n"]
  | _ => []

/-- One network line of a VM list entry (lines 199-216). -/
def vmNetworkListChunks (n : JValue) : List String :=
  match n with
  | .obj f =>
    let name := getNestedString f ["name"]
    match nestedString f ["pod"] with
    | some p =>
      if p ≠ "" then ["      " ++ name ++ ": Pod Network\n"]
      else match nestedMap f ["multus"] with
           | some _ =>
             ["      " ++ name ++ ": Multus "
                ++ getNestedString f ["multus", "networkName"] ++ "\n"]
           | none => ["      " ++ name ++ "\n"]
    | none =>
      match nestedMap f ["multus"] with
      | some _ =>
        ["      " ++ name ++ ": Multus "
           ++ getNestedString f ["multus", "networkName"] ++ "\n"]
      | none => ["      " ++ name ++ "\n"]
  | _ => []

/-- One VM entry of the list view (lines 140-224). -/
def vmListEntryChunks (o : UObj) : List String :=
  let cpuCores :=
    getNestedInt64 o ["spec", "template", "spec", "domain", "cpu", "cores"]
  let memory := getNestedString o
    ["spec", "template", "spec", "domain", "resources", "requests", "memory"]
  let volumes := (nestedSlice o ["spec", "template", "spec", "volumes"]).getD []
  let networks :=
    (nestedSlice o ["spec", "template", "spec", "networks"]).getD []
  ["  • " ++ getName o ++ "\n",
   "    Status: " ++ vmStatus o ++ "\n"]
  ++ (if cpuCores > 0 then ["    CPU Cores: " ++ toString cpuCores ++ "\n"]
      else [])
  ++ (if memory ≠ "" then ["    Memory: " ++ memory ++ "\n"] else [])
  ++ (if volumes.isEmpty then []
      else "    Volumes:\n" :: volumes.flatMap vmVolumeListChunks)
  ++ (if networks.isEmpty then []
      else "    Networks:\n" :: networks.flatMap vmNetworkListChunks)
  ++ ["    Created: " ++ formatCreation o ++ "\n", "\n"]

/-- One namespace group of the VM list view (lines 137-227). -/
def vmNsGroupChunks (g : String × List UObj) : List String :=
  ("Namespace: " ++ g.1 ++ " (" ++ toString g.2.length ++ " VMs)\n")
  :: (g.2.flatMap vmListEntryChunks ++ ["\n"])

/-- The chunks of `VirtualMachineFormatter.FormatResourceList` (121-230). -/
def VirtualMachineFormatter.FormatResourceListChunks (items : List UObj) :
    List String :=
  if items.isEmpty
  then ["No virtual machines found in the specified namespace(s)."]
  else
    ("Found " ++ toString items.length ++ " virtual machine(s):\n\n")
    :: (groupByKey getNamespace items).flatMap vmNsGroupChunks

/-- `VirtualMachineFormatter.FormatResourceList`. -/
def VirtualMachineFormatter.FormatResourceList (items : List UObj) : String :=
  String.join (VirtualMachineFormatter.FormatResourceListChunks items)

/-! ## CRD formatter (harvester_formatters.go, `CRDFormatter`) -/

/-- The grouping key of the CRD list view (lines 577-580): the
`spec.group` string, replaced by "core" when absent or empty. -/
def crdGroupKey (o : UObj) : String :=
  let group := getNestedString o ["spec", "group"]
  if group = "" then "core" else group

/-- One version line of a CRD list entry (lines 602-613). -/
def crdVersionListChunks (v : JValue) : List String :=
  match v with
  | .obj f =>
    let served := getNestedBool f ["served"]
    let storage := getNestedBool f ["storage"]
    ["      " ++ getNestedString f ["name"] ++ " (served: "
       ++ (if served then "true" else "false") ++ ", storage: "
       ++ (if storage then "true" else "false") ++ ")\n"]
  | _ => []

/-- One CRD entry of the list view (lines 588-621). -/
def crdListEntryChunks (o : UObj) : List String :=
  let versions := (nestedSlice o ["spec", "versions"]).getD []
  ["  • " ++ getName o ++ "\n",
   "    Kind: " ++ getNestedString o ["spec", "names", "kind"] ++ "\n",
   "    Plural: " ++ getNestedString o ["spec", "names", "plural"] ++ "\n"]
  ++ (if versions.isEmpty then []
      else "    Versions:\n" :: versions.flatMap crdVersionListChunks)
  ++ ["    Created: " ++ formatCreation o ++ "\n", "\n"]

/-- One group of the CRD list view (lines 585-624): every group, the
"core" bucket included, is rendered with the same header and entry code. -/
def crdGroupChunks (g : String × List UObj) : List String :=
  ("Group: " ++ g.1 ++ " (" ++ toString g.2.length ++ " CRDs)\n")
  :: (g.2.flatMap crdListEntryChunks ++ ["\n"])

/-- The chunks of `CRDFormatter.FormatResourceList` (lines 566-627). -/
def CRDFormatter.FormatResourceListChunks (items : List UObj) : List String :=
  if items.isEmpty then ["No custom resource definitions found."]
  else
    ("Found " ++ toString items.length
       ++ " custom resource definition(s):\n\n")
    :: (groupByKey crdGroupKey items).flatMap crdGroupChunks

/-- `CRDFormatter.FormatResourceList`. -/
def CRDFormatter.FormatResourceList (items : List UObj) : String :=
  String.join (CRDFormatter.FormatResourceListChunks items)

/-! ## Generic fallback formatters and the registry (formatters.go,
resources.go) -/

/-- The chunks of `genericResourceFormatter` (formatters.go lines 86-107):
kind, name, the namespace line only when the namespace is non-empty (no
substitute marker when it is empty), creation time, and the labels section
when non-empty. It renders neither annotations nor the `spec`/`status`
subtrees. -/
def genericResourceFormatterChunks (o : UObj) : List String :=
  ["Kind: " ++ getKind o ++ "\n",
   "Name: " ++ getName o ++ "\n"]
  ++ (if getNamespace o ≠ "" then ["Namespace: " ++ getNamespace o ++ "\n"]
      else [])
  ++ ["Created: " ++ formatCreation o ++ "\n"]
  ++ (if getLabels o ≠ [] then "\nLabels:\n" :: kvLines "  " (getLabels o)
      else [])

/-- `genericResourceFormatter`. -/
def genericResourceFormatter (o : UObj) : String :=
  String.join (genericResourceFormatterChunks o)

/-- One group of `genericResourceListFormatter` (formatters.go lines
131-148); the empty namespace key renders a "Cluster-scoped" header. -/
def genericListGroupChunks (kind : String) (g : String × List UObj) :
    List String :=
  (if g.1 = "" then
     "Cluster-scoped (" ++ toString g.2.length ++ " " ++ kind ++ ")\n"
   else
     "Namespace: " ++ g.1 ++ " (" ++ toString g.2.length ++ " " ++ kind
       ++ ")\n")
  :: (g.2.flatMap (fun r =>
        ["  • " ++ getName r ++ "\n",
         "    Created: " ++ formatCreation r ++ "\n", "\n"])
      ++ ["\n"])

/-- The chunks of `genericResourceListFormatter` (formatters.go 110-151). -/
def genericResourceListFormatterChunks (items : List UObj) : List String :=
  if items.isEmpty then ["No resources found in the specified namespace(s)."]
  else
    let kind := match items with
                | [] => "resources"
                | first :: _ => getKind first ++ "s"
    ("Found " ++ toString items.length ++ " " ++ kind ++ ":\n\n")
    :: (groupByKey getNamespace items).flatMap (genericListGroupChunks kind)

/-- `genericResourceListFormatter`. -/
def genericResourceListFormatter (items : List UObj) : String :=
  String.join (genericResourceListFormatterChunks items)

/-- A registered formatter value: the `ResourceFormatter` interface of
formatters.go. -/
structure GoFormatter where
  formatResource : UObj → String
  formatResourceList : List UObj → String

/-- The registry's kind map (`FormatterRegistry.formatters`), under one
enumeration order. -/
abbrev Registry := List (String × GoFormatter)

/-- `FormatterRegistry.FormatResource` (formatters.go lines 60-66):
dispatch on the document's declared kind, falling back to
`genericResourceFormatter`. -/
def FormatterRegistry.FormatResource (reg : Registry) (o : UObj) : String :=
  match assocFind reg (getKind o) with
  | some f => f.formatResource o
  | none => genericResourceFormatter o

/-- `FormatterRegistry.FormatResourceList` (formatters.go lines 69-83): an
empty collection short-circuits to a fixed message before any formatter
lookup; otherwise dispatch on the first item's declared kind, falling back
to `genericResourceListFormatter`. -/
def FormatterRegistry.FormatResourceList (reg : Registry)
    (items : List UObj) : String :=
  if items.isEmpty then "No resources found in the specified namespace(s)."
  else
    match items with
    | first :: _ =>
      match assocFind reg (getKind first) with
      | some f => f.formatResourceList items
      | none => genericResourceListFormatter items
    | [] => genericResourceListFormatter items

/-- `strings.Title` on the words Go recognizes by a preceding non-letter:
uppercase every letter that follows a non-letter. -/
def titleChars : Bool → List Char → List Char
  | _, [] => []
  | prevLetter, c :: rest =>
    (if c.isAlpha ∧ ¬prevLetter then c.toUpper else c)
    :: titleChars c.isAlpha rest

/-- `strings.Title`. -/
def goTitle (s : String) : String := ⟨titleChars false s.data⟩

/-- The chunks of `formatGenericResource` (resources.go lines 195-245),
the fallback of the GVR-keyed dispatch in
`ResourceHandler.FormatResource`: it labels the document by the titled
plural resource name of the requested GVR (not by the document's declared
kind), prints `Scope: Cluster-wide` when the namespace is empty, and dumps
the top-level keys of the `spec` and `status` subtrees one level deep. -/
def formatGenericResourceChunks (o : UObj) (resourcePlural : String) :
    List String :=
  [goTitle resourcePlural ++ ": " ++ getName o ++ "\n"]
  ++ (if getNamespace o ≠ "" then ["Namespace: " ++ getNamespace o ++ "\n"]
      else ["Scope: Cluster-wide\n"])
  ++ ["Created: " ++ formatCreation o ++ "\n"]
  ++ (if getLabels o ≠ [] then "\nLabels:\n" :: kvLines "  " (getLabels o)
      else [])
  ++ (if getAnnots o ≠ [] then
        "\nAnnotations:\n" :: kvLines "  " (getAnnots o)
      else [])
  ++ (match nestedMap o ["spec"] with
      | some spec => "\nSpec:\n" :: kvLinesV "  " spec
      | none => [])
  ++ (match nestedMap o ["status"] with
      | some st => "\nStatus:\n" :: kvLinesV "  " st
      | none => [])

/-- `formatGenericResource`. -/
def formatGenericResource (o : UObj) (resourcePlural : String) : String :=
  String.join (formatGenericResourceChunks o resourcePlural)

/-! ## Typed namespace list summary (part_006, tools package) -/

/-- The fields of `corev1.Namespace` read by the tools-package summary
(name, status phase, creation timestamp, labels under one enumeration
order). -/
structure NsObj where
  name : String
  phase : String
  creationTimestamp : String
  labels : List (String × String)

/-- The label fragment of `formatNamespaceEntry` (part_006 lines 91-99):
`key=value` pairs joined by ", ". -/
def nsLabelPairs : List (String × String) → String
  | [] => ""
  | [kv] => kv.1 ++ "=" ++ kv.2
  | kv :: rest => kv.1 ++ "=" ++ kv.2 ++ ", " ++ nsLabelPairs rest

/-- The chunks of `formatNamespaceEntry` (part_006 lines 81-102): the
status line shows the phase verbatim. -/
def formatNamespaceEntryChunks (ns : NsObj) : List String :=
  ["  • " ++ ns.name ++ "\n",
   "    Status: " ++ ns.phase ++ "\n",
   "    Created: " ++ rfc3339Render ns.creationTimestamp ++ "\n"]
  ++ (if ns.labels ≠ [] then
        ["    Labels: ", nsLabelPairs ns.labels, "\n"]
      else [])
  ++ ["\n"]

/-- The bucket loop of `formatNamespaceListSummary` (part_006 lines
37-49): one pass appends each namespace to the Active, Terminating, or
Other bucket by its phase, preserving input order within buckets. -/
def nsBuckets (l : List NsObj) : List NsObj × List NsObj × List NsObj :=
  l.foldl
    (fun acc ns =>
      if ns.phase = "Active" then (acc.1 ++ [ns], acc.2.1, acc.2.2)
      else if ns.phase = "Terminating" then (acc.1, acc.2.1 ++ [ns], acc.2.2)
      else (acc.1, acc.2.1, acc.2.2 ++ [ns]))
    ([], [], [])

/-- The chunks of `formatNamespaceListSummary` (part_006 lines 28-78):
count line, then the Active bucket, the Terminating bucket, and the Other
bucket, in that order, each with its header and only when non-empty. -/
def formatNamespaceListSummaryChunks (l : List NsObj) : List String :=
  if l.isEmpty then ["No namespaces found in the cluster."]
  else
    let b := nsBuckets l
    ("Found " ++ toString l.length ++ " namespace(s):\n\n")
    :: ((if b.1.isEmpty then []
         else "Active Namespaces:\n"
              :: (b.1.flatMap formatNamespaceEntryChunks ++ ["\n"]))
        ++ (if b.2.1.isEmpty then []
            else "Terminating Namespaces:\n"
                 :: (b.2.1.flatMap formatNamespaceEntryChunks ++ ["\n"]))
        ++ (if b.2.2.isEmpty then []
            else "Other Namespaces:\n"
                 :: b.2.2.flatMap formatNamespaceEntryChunks))

/-- `formatNamespaceListSummary`. -/
def formatNamespaceListSummary (l : List NsObj) : String :=
  String.join (formatNamespaceListSummaryChunks l)

/-! ## The delete-pod tool (pods.go, `DeletePod`) -/

/-- A tool-boundary result: `mcp.NewToolResultError` sets the error flag,
`mcp.NewToolResultText` does not; either way the caller receives text and
the Go function returns a nil error (no exception crosses the boundary). -/
structure ToolResult where
  isError : Bool
  text : String

/-- The access layer's answer to the delete call: success, or a failure
whose rendered message (`%v` of the error, e.g. the not-found text) is
carried. -/
inductive DeleteOutcome where
  | ok
  | err (msg : String)

/-- `DeletePod` (pods.go lines 71-88 / 325-342): a missing or empty
namespace or name argument is rejected before any remote call; a failing
delete is wrapped as `Failed to delete pod <name> in namespace <ns>:
<error>`. The argument options model `req.Params.Arguments[...].(string)`,
`none` standing for a missing or non-string argument. -/
def DeletePod (namespaceArg nameArg : Option String)
    (outcome : DeleteOutcome) : ToolResult :=
  match namespaceArg with
  | none => ⟨true, "Namespace is required"⟩
  | some ns =>
    if ns = "" then ⟨true, "Namespace is required"⟩
    else
      match nameArg with
      | none => ⟨true, "Pod name is required"⟩
      | some name =>
        if name = "" then ⟨true, "Pod name is required"⟩
        else
          match outcome with
          | .err m =>
            ⟨true, "Failed to delete pod " ++ (name ++ (" in namespace "
               ++ (ns ++ (": " ++ m))))⟩
          | .ok =>
            ⟨false, "Successfully deleted pod " ++ (name
               ++ (" in namespace " ++ ns))⟩

/-! ## Lemmas about the grouping loop -/

theorem groupByKey_append {α : Type} (keyOf : α → String) (l : List α)
    (x : α) :
    groupByKey keyOf (l ++ [x])
      = insertGrouped (keyOf x) x (groupByKey keyOf l) := by
  simp [groupByKey, List.foldl_append]

theorem insertGrouped_sum {α : Type} (k : String) (x : α)
    (g : List (String × List α)) :
    ((insertGrouped k x g).map (fun e => e.2.length)).sum
      = ((g.map (fun e => e.2.length)).sum) + 1 := by
  induction g with
  | nil => simp [insertGrouped]
  | cons e rest ih =>
    obtain ⟨k₀, xs⟩ := e
    by_cases h : k₀ = k
    · simp [insertGrouped, h]
      omega
    · simp [insertGrouped, h, ih]
      omega

theorem insertGrouped_keys_mem {α : Type} (k k' : String) (x : α)
    (g : List (String × List α)) :
    (k' ∈ (insertGrouped k x g).map Prod.fst)
      ↔ (k' ∈ g.map Prod.fst ∨ k' = k) := by
  induction g with
  | nil => simp [insertGrouped, eq_comm]
  | cons e rest ih =>
    obtain ⟨k₀, xs⟩ := e
    by_cases h : k₀ = k
    · subst h
      simp [insertGrouped]
      tauto
    · simp [insertGrouped, h, ih]
      tauto

theorem insertGrouped_keys_nodup {α : Type} (k : String) (x : α)
    (g : List (String × List α)) (h : (g.map Prod.fst).Nodup) :
    ((insertGrouped k x g).map Prod.fst).Nodup := by
  induction g with
  | nil => simp [insertGrouped]
  | cons e rest ih =>
    obtain ⟨k₀, xs⟩ := e
    by_cases hk : k₀ = k
    · subst hk
      simpa [insertGrouped] using h
    · simp only [List.map_cons, List.nodup_cons] at h
      have hrest := ih h.2
      simp only [insertGrouped, if_neg hk, List.map_cons, List.nodup_cons]
      refine ⟨?_, hrest⟩
      intro hc
      rcases (insertGrouped_keys_mem k k₀ x rest).1 hc with hc | hc
      · exact h.1 hc
      · exact hk hc

theorem findGroup_insertGrouped {α : Type} (k k' : String) (x : α)
    (g : List (String × List α)) :
    findGroup (insertGrouped k x g) k'
      = if k' = k then findGroup g k' ++ [x] else findGroup g k' := by
  induction g with
  | nil =>
    rcases eq_or_ne k' k with h | h
    · subst h
      simp [insertGrouped, findGroup]
    · have h' : ¬k = k' := fun hc => h hc.symm
      simp [insertGrouped, findGroup, h, h']
  | cons e rest ih =>
    obtain ⟨k₀, xs⟩ := e
    by_cases h₀ : k₀ = k
    · subst h₀
      by_cases h' : k' = k₀
      · subst h'
        simp [insertGrouped, findGroup]
      · have h'' : ¬k₀ = k' := fun hc => h' hc.symm
        simp [insertGrouped, findGroup, h', h'']
    · by_cases h' : k' = k₀
      · subst h'
        simp [insertGrouped, findGroup, h₀]
      · have h'' : ¬k₀ = k' := fun hc => h' hc.symm
        simp [insertGrouped, findGroup, h₀, h'', ih]

/-- The header counts of a grouped rendering add up to the collection
size, whatever enumeration order the map receives. -/
theorem groupByKey_sum_lengths {α : Type} (f : α → String) (l : List α) :
    ((groupByKey f l).map (fun e => e.2.length)).sum = l.length := by
  induction l using List.reverseRecOn with
  | nil => simp [groupByKey]
  | append_singleton l x ih =>
    simp [groupByKey_append, insertGrouped_sum, ih]

/-- The group bound to a key is the subsequence of items carrying that
key, in input order. -/
theorem groupByKey_findGroup {α : Type} (f : α → String) (l : List α)
    (k : String) :
    findGroup (groupByKey f l) k = l.filter (fun y => f y = k) := by
  induction l using List.reverseRecOn with
  | nil => simp [groupByKey, findGroup]
  | append_singleton l x ih =>
    rw [groupByKey_append, findGroup_insertGrouped]
    by_cases h : k = f x
    · subst h
      simp [ih, List.filter_append]
    · have h' : ¬f x = k := fun hc => h hc.symm
      simp [h, h', ih, List.filter_append]

/-- Each key appears at most once among the groups. -/
theorem groupByKey_keys_nodup {α : Type} (f : α → String) (l : List α) :
    ((groupByKey f l).map Prod.fst).Nodup := by
  induction l using List.reverseRecOn with
  | nil => simp [groupByKey]
  | append_singleton l x ih =>
    rw [groupByKey_append]
    exact insertGrouped_keys_nodup _ _ _ ih

/-- The group keys are exactly the keys occurring among the items. -/
theorem groupByKey_keys_mem {α : Type} (f : α → String) (l : List α)
    (k : String) :
    k ∈ (groupByKey f l).map Prod.fst ↔ ∃ y ∈ l, f y = k := by
  induction l using List.reverseRecOn with
  | nil => simp [groupByKey]
  | append_singleton l x ih =>
    rw [groupByKey_append, insertGrouped_keys_mem, ih]
    constructor
    · intro hc
      rcases hc with ⟨y, hy, hfy⟩ | hc
      · exact ⟨y, List.mem_append_left _ hy, hfy⟩
      · exact ⟨x, List.mem_append_right _ (List.mem_singleton.2 rfl), hc.symm⟩
    · intro ⟨y, hy, hfy⟩
      rcases List.mem_append.1 hy with hy | hy
      · exact Or.inl ⟨y, hy, hfy⟩
      · rw [List.mem_singleton.1 hy] at hfy
        exact Or.inr hfy.symm

/-- A key whose group is non-empty occurs as a map entry carrying exactly
that group. -/
theorem findGroup_mem {α : Type} (g : List (String × List α)) (k : String)
    (h : findGroup g k ≠ []) : (k, findGroup g k) ∈ g := by
  induction g with
  | nil => simp [findGroup] at h
  | cons e rest ih =>
    obtain ⟨k₀, xs⟩ := e
    by_cases hk : k₀ = k
    · subst hk
      simp [findGroup] at h ⊢
    · simp only [findGroup, if_neg hk] at h ⊢
      exact List.mem_cons_of_mem _ (ih h)

/-- The single-pass bucket loop of the namespace summary partitions the
collection into the Active, Terminating, and remaining namespaces, each in
input order. -/
theorem nsBuckets_eq_filters (l : List NsObj) :
    nsBuckets l
      = (l.filter (fun ns => ns.phase = "Active"),
         l.filter (fun ns => ns.phase = "Terminating"),
         l.filter (fun ns =>
           ¬ns.phase = "Active" ∧ ¬ns.phase = "Terminating")) := by
  induction l using List.reverseRecOn with
  | nil => simp [nsBuckets]
  | append_singleton l x ih =>
    have hstep : nsBuckets (l ++ [x])
        = (if x.phase = "Active" then
             ((nsBuckets l).1 ++ [x], (nsBuckets l).2.1, (nsBuckets l).2.2)
           else if x.phase = "Terminating" then
             ((nsBuckets l).1, (nsBuckets l).2.1 ++ [x], (nsBuckets l).2.2)
           else
             ((nsBuckets l).1, (nsBuckets l).2.1, (nsBuckets l).2.2 ++ [x]))
        := by
      simp [nsBuckets, List.foldl_append]
    rw [hstep, ih]
    by_cases hA : x.phase = "Active"
    · simp [hA, List.filter_append]
    · by_cases hT : x.phase = "Terminating"
      · simp [hA, hT, List.filter_append]
      · simp [hA, hT, List.filter_append]

/-! ## Example documents used by witnesses and counterexamples -/

/-- A virtual machine document with `status.ready` absent and
`status.created` true. -/
def vmEx : UObj :=
  [("kind", .str "VirtualMachine"),
   ("metadata", .obj [("name", .str "vm1"), ("namespace", .str "default"),
     ("creationTimestamp", .str "2024-01-01T00:00:00Z")]),
   ("status", .obj [("created", .bool true)])]

/-- A pod document in namespace `default`. -/
def podEx : UObj :=
  [("kind", .str "Pod"),
   ("metadata", .obj [("name", .str "web-1"), ("namespace", .str "default"),
     ("creationTimestamp", .str "2024-01-01T00:00:00Z")]),
   ("status", .obj [("phase", .str "Running")])]

/-! ## C3 -/

/-- C3: the registry's renderMany short-circuits an empty collection to
the fixed kind-agnostic message whatever formatters are registered, and
the pod list formatter renders an empty collection as exactly
"No pods found in the specified namespace(s)." with no count line
("Found ...") and no group header ("Namespace: ..."). -/
theorem C3_empty_collection_fixed_message :
    (∀ reg : Registry,
      FormatterRegistry.FormatResourceList reg []
        = "No resources found in the specified namespace(s).")
    ∧ PodFormatter.FormatResourceList []
        = "No pods found in the specified namespace(s)."
    ∧ ¬strHasSub (PodFormatter.FormatResourceList []) "Found "
    ∧ ¬strHasSub (PodFormatter.FormatResourceList []) "Namespace:" := by
  refine ⟨fun reg => rfl, rfl, ?_, ?_⟩ <;> decide

/-! ## C9 -/

/-- C9: a delete-pod call with namespace and name supplied whose access
layer reports a failure returns an error-flagged tool result whose text
contains the pod name, the namespace, and the underlying error rendering;
the operation is a total function into tool results (no exception crosses
the tool boundary). -/
theorem C9_delete_pod_not_found (ns name errMsg : String)
    (hns : ns ≠ "") (hname : name ≠ "") :
    (DeletePod (some ns) (some name) (.err errMsg)).isError = true
    ∧ (DeletePod (some ns) (some name) (.err errMsg)).text
        = "Failed to delete pod " ++ (name ++ (" in namespace "
            ++ (ns ++ (": " ++ errMsg))))
    ∧ strHasSub (DeletePod (some ns) (some name) (.err errMsg)).text name
    ∧ strHasSub (DeletePod (some ns) (some name) (.err errMsg)).text ns
    ∧ strHasSub (DeletePod (some ns) (some name) (.err errMsg)).text errMsg
    := by
  have htext : (DeletePod (some ns) (some name) (.err errMsg)).text
      = "Failed to delete pod " ++ (name ++ (" in namespace "
          ++ (ns ++ (": " ++ errMsg)))) := by
    simp [DeletePod, hns, hname]
  refine ⟨by simp [DeletePod, hns, hname], htext, ?_, ?_, ?_⟩
  · rw [htext]
    exact ⟨"Failed to delete pod ".data,
      (" in namespace " ++ (ns ++ (": " ++ errMsg))).data, by simp⟩
  · rw [htext]
    refine ⟨("Failed to delete pod " ++ (name ++ " in namespace ")).data,
      (": " ++ errMsg).data, ?_⟩
    simp
  · rw [htext]
    refine ⟨("Failed to delete pod " ++ (name ++ (" in namespace "
      ++ (ns ++ ": ")))).data, [], ?_⟩
    simp

/-- Witness for C9 at a concrete not-found deletion. -/
theorem C9_delete_pod_not_found_witness :
    ("default" : String) ≠ "" ∧ ("ghost" : String) ≠ ""
    ∧ ((DeletePod (some "default") (some "ghost")
          (.err "pods ghost not found")).isError = true
       ∧ (DeletePod (some "default") (some "ghost")
            (.err "pods ghost not found")).text
           = "Failed to delete pod " ++ ("ghost" ++ (" in namespace "
               ++ ("default" ++ (": " ++ "pods ghost not found"))))
       ∧ strHasSub (DeletePod (some "default") (some "ghost")
            (.err "pods ghost not found")).text "ghost"
       ∧ strHasSub (DeletePod (some "default") (some "ghost")
            (.err "pods ghost not found")).text "default"
       ∧ strHasSub (DeletePod (some "default") (some "ghost")
            (.err "pods ghost not found")).text "pods ghost not found") :=
  ⟨by decide, by decide,
   C9_delete_pod_not_found "default" "ghost" "pods ghost not found"
     (by decide) (by decide)⟩

/-! ## C7 -/

/-- The status line of a VM list entry is the entry's second chunk. -/
theorem vmListEntry_status_mem (o : UObj) :
    ("    Status: " ++ vmStatus o ++ "\n") ∈ vmListEntryChunks o := by
  simp [vmListEntryChunks]

/-- Lift a per-entry chunk into the grouped rendering: an item of the
collection lands in the group of its key, whose chunks contain the
entry's chunk. -/
theorem mem_group_chunks {α : Type} (f : α → String) (items : List α)
    (chunkFn : String × List α → List String) (o : α) (c : String)
    (ho : o ∈ items)
    (hc : ∀ (k : String) (g : List α), o ∈ g → c ∈ chunkFn (k, g)) :
    c ∈ (groupByKey f items).flatMap chunkFn := by
  have hmem : o ∈ findGroup (groupByKey f items) (f o) := by
    rw [groupByKey_findGroup]
    simp [List.mem_filter, ho]
  have hne : findGroup (groupByKey f items) (f o) ≠ [] :=
    List.ne_nil_of_mem hmem
  have hpair := findGroup_mem _ _ hne
  exact List.mem_flatMap.2
    ⟨(f o, findGroup (groupByKey f items) (f o)), hpair, hc _ _ hmem⟩

/-- C7: the virtual machine status is "Running" when the observed
`status.ready` flag is true, else "Created" when `status.created` is
true, else "Unknown" (absent flags read as false), and this status is
printed by both the detail view and the list view's entry for the
document. -/
theorem C7_vm_status (o : UObj) (items : List UObj) (h : o ∈ items) :
    vmStatus o = (if getNestedBool o ["status", "ready"] then "Running"
                  else if getNestedBool o ["status", "created"] then "Created"
                  else "Unknown")
    ∧ (nestedBool o ["status", "ready"] = none
        → getNestedBool o ["status", "ready"] = false)
    ∧ ("Status: " ++ vmStatus o ++ "\n")
        ∈ VirtualMachineFormatter.FormatResourceChunks o
    ∧ ("    Status: " ++ vmStatus o ++ "\n")
        ∈ VirtualMachineFormatter.FormatResourceListChunks items := by
  refine ⟨rfl, ?_, ?_, ?_⟩
  · intro hb
    simp [getNestedBool, hb]
  · simp [VirtualMachineFormatter.FormatResourceChunks]
  · have hne : items.isEmpty = false :=
      List.isEmpty_eq_false.2 (List.ne_nil_of_mem h)
    simp only [VirtualMachineFormatter.FormatResourceListChunks, hne,
      Bool.false_eq_true, if_false]
    refine List.mem_cons_of_mem _ ?_
    refine mem_group_chunks getNamespace items vmNsGroupChunks o _ h ?_
    intro k g hog
    refine List.mem_cons_of_mem _ (List.mem_append_left _ ?_)
    exact List.mem_flatMap.2 ⟨o, hog, vmListEntry_status_mem o⟩

/-- Witness for C7 on a VM with `ready` absent and `created` true. -/
theorem C7_vm_status_witness :
    vmStatus vmEx
      = (if getNestedBool vmEx ["status", "ready"] then "Running"
         else if getNestedBool vmEx ["status", "created"] then "Created"
         else "Unknown")
    ∧ (nestedBool vmEx ["status", "ready"] = none
        → getNestedBool vmEx ["status", "ready"] = false)
    ∧ ("Status: " ++ vmStatus vmEx ++ "\n")
        ∈ VirtualMachineFormatter.FormatResourceChunks vmEx
    ∧ ("    Status: " ++ vmStatus vmEx ++ "\n")
        ∈ VirtualMachineFormatter.FormatResourceListChunks [vmEx] :=
  C7_vm_status vmEx [vmEx] (List.mem_singleton.2 rfl)

/-! ## C8 -/

/-- C8: in the grouped list renderings of namespaced kinds, the per-group
counts printed in the headers sum to the collection length, each distinct
namespace occurs as exactly one group key, and for every group its header
line (with the group's count) is printed once by the pod and VM list
views. -/
theorem C8_grouping_invariant (items : List UObj) :
    ((groupByKey getNamespace items).map (fun e => e.2.length)).sum
        = items.length
    ∧ ((groupByKey getNamespace items).map Prod.fst).Nodup
    ∧ (∀ ns, ns ∈ (groupByKey getNamespace items).map Prod.fst
          ↔ ∃ o ∈ items, getNamespace o = ns)
    ∧ (∀ g ∈ groupByKey getNamespace items,
        ("Namespace: " ++ g.1 ++ " (" ++ toString g.2.length ++ " pods)\n")
          ∈ PodFormatter.FormatResourceListChunks items)
    ∧ (∀ g ∈ groupByKey getNamespace items,
        ("Namespace: " ++ g.1 ++ " (" ++ toString g.2.length ++ " VMs)\n")
          ∈ VirtualMachineFormatter.FormatResourceListChunks items) := by
  have hne : ∀ g, g ∈ groupByKey getNamespace items → items.isEmpty = false := by
    intro g hg
    cases items with
    | nil => simp [groupByKey] at hg
    | cons a l => simp
  refine ⟨groupByKey_sum_lengths _ _, groupByKey_keys_nodup _ _,
    groupByKey_keys_mem _ _, ?_, ?_⟩
  · intro g hg
    simp only [PodFormatter.FormatResourceListChunks, hne g hg,
      Bool.false_eq_true, if_false]
    refine List.mem_cons_of_mem _ ?_
    exact List.mem_flatMap.2 ⟨g, hg, by simp [podNsGroupChunks]⟩
  · intro g hg
    simp only [VirtualMachineFormatter.FormatResourceListChunks, hne g hg,
      Bool.false_eq_true, if_false]
    refine List.mem_cons_of_mem _ ?_
    exact List.mem_flatMap.2 ⟨g, hg, by simp [vmNsGroupChunks]⟩

/-- Witness for C8 on a singleton pod collection, discharging the
per-group membership hypothesis at the concrete group. -/
theorem C8_grouping_invariant_witness :
    ("Namespace: " ++ "default" ++ " (" ++ toString ([podEx].length)
       ++ " pods)\n")
      ∈ PodFormatter.FormatResourceListChunks [podEx] :=
  (C8_grouping_invariant [podEx]).2.2.2.1 ("default", [podEx])
    (by simp [groupByKey, insertGrouped]; rfl)

/-! ## C10 -/

/-- C10: in the CRD list rendering, documents whose `spec.group` is
absent or empty are keyed to the "core" group; that group is exactly the
sublist of such documents, and its header is rendered with its count by
the same group code as every other group. -/
theorem C10_crd_core_group (items : List UObj) (o : UObj)
    (ho : o ∈ items) (hg : getNestedString o ["spec", "group"] = "") :
    crdGroupKey o = "core"
    ∧ findGroup (groupByKey crdGroupKey items) "core"
        = items.filter (fun y => crdGroupKey y = "core")
    ∧ o ∈ findGroup (groupByKey crdGroupKey items) "core"
    ∧ ("Group: core ("
        ++ toString (findGroup (groupByKey crdGroupKey items) "core").length
        ++ " CRDs)\n") ∈ CRDFormatter.FormatResourceListChunks items := by
  have hkey : crdGroupKey o = "core" := by simp [crdGroupKey, hg]
  have hfind := groupByKey_findGroup crdGroupKey items "core"
  have hmem : o ∈ findGroup (groupByKey crdGroupKey items) "core" := by
    rw [hfind]
    simp [List.mem_filter, ho, hkey]
  have hne : items.isEmpty = false :=
    List.isEmpty_eq_false.2 (List.ne_nil_of_mem ho)
  have hpair := findGroup_mem (groupByKey crdGroupKey items) "core"
    (List.ne_nil_of_mem hmem)
  refine ⟨hkey, hfind, hmem, ?_⟩
  simp only [CRDFormatter.FormatResourceListChunks, hne,
    Bool.false_eq_true, if_false]
  refine List.mem_cons_of_mem _ ?_
  exact List.mem_flatMap.2 ⟨_, hpair, by simp [crdGroupChunks]⟩

/-- A CRD document with no `spec.group` field. -/
def crdEx : UObj :=
  [("kind", .str "CustomResourceDefinition"),
   ("metadata", .obj [("name", .str "widgets.example"),
     ("creationTimestamp", .str "2024-01-01T00:00:00Z")]),
   ("spec", .obj [("names", .obj [("kind", .str "Widget"),
     ("plural", .str "widgets")])])]

/-- Witness for C10 on a CRD without a `spec.group` field. -/
theorem C10_crd_core_group_witness :
    crdGroupKey crdEx = "core"
    ∧ findGroup (groupByKey crdGroupKey [crdEx]) "core"
        = [crdEx].filter (fun y => crdGroupKey y = "core")
    ∧ crdEx ∈ findGroup (groupByKey crdGroupKey [crdEx]) "core"
    ∧ ("Group: core ("
        ++ toString (findGroup (groupByKey crdGroupKey [crdEx]) "core").length
        ++ " CRDs)\n") ∈ CRDFormatter.FormatResourceListChunks [crdEx] :=
  C10_crd_core_group [crdEx] crdEx (List.mem_singleton.2 rfl) rfl

/-! ## C1 -/

/-- The list-view status loop never changes the printed value: the Go
loop writes only its shadowed local. -/
theorem nodeListStatusLoop_eq (outer : String) (conds : List JValue) :
    nodeListStatusLoop outer conds = outer := by
  induction conds with
  | nil => rfl
  | cons c rest ih =>
    cases c <;> simp only [nodeListStatusLoop, ih]
    split
    · split <;> rfl
    · rfl

/-- The node detail status rule in the amended claim's words: the status
string of the first condition that is a map carrying string `type` and
`status` fields with type "Ready"; `none` when no such condition exists. -/
def firstReadyCondStatus : List JValue → Option String
  | [] => none
  | .obj f :: rest =>
    match nestedString f ["type"], nestedString f ["status"] with
    | some t, some s =>
      if t = "Ready" then some s else firstReadyCondStatus rest
    | _, _ => firstReadyCondStatus rest
  | _ :: rest => firstReadyCondStatus rest

/-- A node with no conditions list. -/
def nodeNoCondEx : UObj :=
  [("kind", .str "Node"),
   ("metadata", .obj [("name", .str "n1"),
     ("creationTimestamp", .str "2024-01-01T00:00:00Z")])]

/-- A node whose Ready condition has value "False". -/
def nodeNotReadyEx : UObj :=
  [("kind", .str "Node"),
   ("metadata", .obj [("name", .str "n2"),
     ("creationTimestamp", .str "2024-01-01T00:00:00Z")]),
   ("status", .obj [("conditions", .arr
     [.obj [("type", .str "Ready"), ("status", .str "False")]])])]

/-- Counterexample to C1: a node with no Ready condition renders the
detail status "Unknown", not the claimed "NotReady"; and a node whose
Ready condition is "False" still renders the list status "Ready" (the
loop's Ready/NotReady result is written to a shadowed variable and
discarded), while the detail view of the same document says "NotReady". -/
theorem C1_node_status_counterexample :
    ("Status: Unknown\n") ∈ NodeFormatter.FormatResourceChunks nodeNoCondEx
    ∧ ("Status: NotReady\n") ∉ NodeFormatter.FormatResourceChunks nodeNoCondEx
    ∧ ("  Status: Ready\n")
        ∈ NodeFormatter.FormatResourceListChunks [nodeNotReadyEx]
    ∧ ("  Status: NotReady\n")
        ∉ NodeFormatter.FormatResourceListChunks [nodeNotReadyEx]
    ∧ ("Status: NotReady\n")
        ∈ NodeFormatter.FormatResourceChunks nodeNotReadyEx := by
  decide

/-- C1 as amended: the detail view derives "Ready"/"NotReady" from the
first Ready-typed condition carrying a status string and falls back to
"Unknown" when none exists, while the list view always prints "Ready"
owing to the variable shadowing; both views print their respective status
lines. -/
theorem C1_node_status_amended (o : UObj) (items : List UObj)
    (h : o ∈ items) :
    (∀ conds : List JValue,
       nodeDetailStatus conds
         = match firstReadyCondStatus conds with
           | some s => if s = "True" then "Ready" else "NotReady"
           | none => "Unknown")
    ∧ (∀ conds : List JValue, nodeListStatus conds = "Ready")
    ∧ ("Status: "
        ++ nodeDetailStatus ((nestedSlice o ["status", "conditions"]).getD [])
        ++ "\n") ∈ NodeFormatter.FormatResourceChunks o
    ∧ ("  Status: Ready\n") ∈ NodeFormatter.FormatResourceListChunks items
    := by
  refine ⟨?_, fun conds => nodeListStatusLoop_eq _ _, ?_, ?_⟩
  · intro conds
    induction conds with
    | nil => rfl
    | cons c rest ih =>
      cases c <;> simp only [nodeDetailStatus, firstReadyCondStatus, ih]
      split
      · split <;> simp
      · rfl
  · simp [NodeFormatter.FormatResourceChunks]
  · have hne : items.isEmpty = false :=
      List.isEmpty_eq_false.2 (List.ne_nil_of_mem h)
    simp only [NodeFormatter.FormatResourceListChunks, hne,
      Bool.false_eq_true, if_false]
    refine List.mem_cons_of_mem _ ?_
    refine List.mem_flatMap.2 ⟨o, h, ?_⟩
    simp [nodeListEntryChunks, nodeListStatus, nodeListStatusLoop_eq]

/-- Witness for C1's amended theorem on a singleton node list. -/
theorem C1_node_status_amended_witness :
    (∀ conds : List JValue,
       nodeDetailStatus conds
         = match firstReadyCondStatus conds with
           | some s => if s = "True" then "Ready" else "NotReady"
           | none => "Unknown")
    ∧ (∀ conds : List JValue, nodeListStatus conds = "Ready")
    ∧ ("Status: "
        ++ nodeDetailStatus
             ((nestedSlice nodeNotReadyEx ["status", "conditions"]).getD [])
        ++ "\n") ∈ NodeFormatter.FormatResourceChunks nodeNotReadyEx
    ∧ ("  Status: Ready\n")
        ∈ NodeFormatter.FormatResourceListChunks [nodeNotReadyEx] :=
  C1_node_status_amended nodeNotReadyEx [nodeNotReadyEx]
    (List.mem_singleton.2 rfl)

/-! ## C2 -/

/-- A Terminating namespace document. -/
def nsTermDoc : UObj :=
  [("kind", .str "Namespace"),
   ("metadata", .obj [("name", .str "ns-t"),
     ("creationTimestamp", .str "2024-01-01T00:00:00Z")]),
   ("status", .obj [("phase", .str "Terminating")])]

/-- An Active namespace document. -/
def nsActiveDoc : UObj :=
  [("kind", .str "Namespace"),
   ("metadata", .obj [("name", .str "ns-a"),
     ("creationTimestamp", .str "2024-01-01T00:00:00Z")]),
   ("status", .obj [("phase", .str "Active")])]

/-- Counterexample to C2: the Resource-Document list rendering of
namespaces (`NamespaceFormatter.FormatResourceList`) does not bucket by
phase: on a [Terminating, Active] collection it prints the entries in
input order (the Terminating entry before the Active one) and emits no
bucket header. -/
theorem C2_namespace_grouping_counterexample :
    NamespaceFormatter.FormatResourceListChunks [nsTermDoc, nsActiveDoc]
      = ["Found 2 namespace(s):\n\n",
         "• ns-t\n", "  Status: Terminating\n",
         "  Created: 2024-01-01T00:00:00Z\n", "\n",
         "• ns-a\n", "  Status: Active\n",
         "  Created: 2024-01-01T00:00:00Z\n", "\n"]
    ∧ ("Active Namespaces:\n")
        ∉ NamespaceFormatter.FormatResourceListChunks [nsTermDoc, nsActiveDoc]
    ∧ (NamespaceFormatter.FormatResourceListChunks
         [nsTermDoc, nsActiveDoc]).indexOf "  Status: Terminating\n"
        < (NamespaceFormatter.FormatResourceListChunks
             [nsTermDoc, nsActiveDoc]).indexOf "  Status: Active\n" := by
  decide

/-- C2 as amended: the typed namespace summary of the tools package
(`formatNamespaceListSummary`) is the rendering that buckets by phase: a
non-empty collection renders as the count line followed by the Active,
Terminating, and Other buckets in that priority order (each being the
phase-filtered sublist in input order, with its header, rendered only when
non-empty), and every entry's status line shows the phase verbatim. -/
theorem C2_namespace_buckets_amended (l : List NsObj)
    (h : l.isEmpty = false) :
    formatNamespaceListSummaryChunks l
      = ("Found " ++ toString l.length ++ " namespace(s):\n\n")
        :: ((if (l.filter (fun x => x.phase = "Active")).isEmpty then []
             else "Active Namespaces:\n"
               :: ((l.filter (fun x => x.phase = "Active")).flatMap
                     formatNamespaceEntryChunks ++ ["\n"]))
            ++ (if (l.filter (fun x => x.phase = "Terminating")).isEmpty
                then []
                else "Terminating Namespaces:\n"
                  :: ((l.filter (fun x => x.phase = "Terminating")).flatMap
                        formatNamespaceEntryChunks ++ ["\n"]))
            ++ (if (l.filter (fun x =>
                      ¬x.phase = "Active" ∧ ¬x.phase = "Terminating")).isEmpty
                then []
                else "Other Namespaces:\n"
                  :: (l.filter (fun x =>
                        ¬x.phase = "Active" ∧ ¬x.phase = "Terminating")).flatMap
                       formatNamespaceEntryChunks))
    ∧ ∀ ns : NsObj,
        ("    Status: " ++ ns.phase ++ "\n") ∈ formatNamespaceEntryChunks ns
    := by
  constructor
  · simp [formatNamespaceListSummaryChunks, h, nsBuckets_eq_filters]
  · intro ns
    simp [formatNamespaceEntryChunks]

/-- Witness for C2's amended theorem on a two-namespace collection. -/
theorem C2_namespace_buckets_amended_witness :
    ([⟨"ns-a", "Active", "2024-01-01T00:00:00Z", []⟩,
      ⟨"ns-t", "Terminating", "2024-01-01T00:00:00Z", []⟩] :
        List NsObj).isEmpty = false
    ∧ (formatNamespaceListSummaryChunks
         [⟨"ns-a", "Active", "2024-01-01T00:00:00Z", []⟩,
          ⟨"ns-t", "Terminating", "2024-01-01T00:00:00Z", []⟩]).length > 0 :=
  ⟨by decide,
   by
    have := C2_namespace_buckets_amended
      [⟨"ns-a", "Active", "2024-01-01T00:00:00Z", []⟩,
       ⟨"ns-t", "Terminating", "2024-01-01T00:00:00Z", []⟩] (by decide)
    rw [this.1]
    simp⟩

/-! ## C4 -/

/-- A deployment whose desired count (`spec.replicas` = 3) differs from
its observed total (`status.replicas` = 5). -/
def depEx : UObj :=
  [("kind", .str "Deployment"),
   ("metadata", .obj [("name", .str "web"), ("namespace", .str "default"),
     ("creationTimestamp", .str "2024-01-01T00:00:00Z")]),
   ("spec", .obj [("replicas", .int 3)]),
   ("status", .obj [("replicas", .int 5)])]

/-- Counterexample to C4: the detail view's "total" slot repeats
`spec.replicas` (3) instead of reading the total-replica field
`status.replicas` (5), so the five numbers are not each taken from their
corresponding field; and the list view reads its "total" from
`status.replicas` (5), so the list does not abbreviate the same
derivation as the detail view. -/
theorem C4_deployment_replicas_counterexample :
    getNestedInt64 depEx ["spec", "replicas"] = 3
    ∧ getNestedInt64 depEx ["status", "replicas"] = 5
    ∧ deploymentDetailReplicaLine depEx
        = "Replicas: 3 desired | 0 updated | 3 total | 0 available | 0 ready\n"
    ∧ deploymentDetailReplicaLine depEx
        ∈ DeploymentFormatter.FormatResourceChunks depEx
    ∧ ¬strHasSub (DeploymentFormatter.FormatResource depEx) "5 total"
    ∧ deploymentListReplicaLine depEx
        = "    Replicas: 0 available / 5 total / 0 updated\n"
    ∧ strHasSub (DeploymentFormatter.FormatResourceList [depEx]) "5 total"
    := by
  set_option maxRecDepth 10000 in decide

/-- C4 as amended: the detail replica line is `desired / updated / total /
available / ready` where desired and total are both `spec.replicas`,
updated/available/ready come from the matching `status` fields, and every
slot defaults to 0 when its field is absent; the list view's abbreviated
line reads available/total/updated from `status.availableReplicas`,
`status.replicas` and `status.updatedReplicas`. Both lines are printed by
their respective renderings. -/
theorem C4_deployment_replicas_amended (o : UObj) (items : List UObj)
    (h : o ∈ items) :
    deploymentDetailReplicaLine o
      = "Replicas: " ++ toString (getNestedInt64 o ["spec", "replicas"])
        ++ " desired | "
        ++ toString (getNestedInt64 o ["status", "updatedReplicas"])
        ++ " updated | " ++ toString (getNestedInt64 o ["spec", "replicas"])
        ++ " total | "
        ++ toString (getNestedInt64 o ["status", "availableReplicas"])
        ++ " available | "
        ++ toString (getNestedInt64 o ["status", "readyReplicas"])
        ++ " ready\n"
    ∧ (nestedInt64 o ["status", "replicas"] = none
        → getNestedInt64 o ["status", "replicas"] = 0)
    ∧ deploymentDetailReplicaLine o
        ∈ DeploymentFormatter.FormatResourceChunks o
    ∧ deploymentListReplicaLine o
      = "    Replicas: "
        ++ toString (getNestedInt64 o ["status", "availableReplicas"])
        ++ " available / " ++ toString (getNestedInt64 o ["status", "replicas"])
        ++ " total / "
        ++ toString (getNestedInt64 o ["status", "updatedReplicas"])
        ++ " updated\n"
    ∧ deploymentListReplicaLine o
        ∈ DeploymentFormatter.FormatResourceListChunks items := by
  refine ⟨rfl, ?_, ?_, rfl, ?_⟩
  · intro hb
    simp [getNestedInt64, hb]
  · simp [DeploymentFormatter.FormatResourceChunks]
  · have hne : items.isEmpty = false :=
      List.isEmpty_eq_false.2 (List.ne_nil_of_mem h)
    simp only [DeploymentFormatter.FormatResourceListChunks, hne,
      Bool.false_eq_true, if_false]
    refine List.mem_cons_of_mem _ ?_
    refine mem_group_chunks getNamespace items deployNsGroupChunks o _ h ?_
    intro k g hog
    refine List.mem_cons_of_mem _ (List.mem_append_left _ ?_)
    refine List.mem_flatMap.2 ⟨o, hog, ?_⟩
    simp [deployListEntryChunks]

/-- Witness for C4's amended theorem on the concrete deployment. -/
theorem C4_deployment_replicas_amended_witness :
    deploymentDetailReplicaLine depEx
      = "Replicas: " ++ toString (getNestedInt64 depEx ["spec", "replicas"])
        ++ " desired | "
        ++ toString (getNestedInt64 depEx ["status", "updatedReplicas"])
        ++ " updated | "
        ++ toString (getNestedInt64 depEx ["spec", "replicas"])
        ++ " total | "
        ++ toString (getNestedInt64 depEx ["status", "availableReplicas"])
        ++ " available | "
        ++ toString (getNestedInt64 depEx ["status", "readyReplicas"])
        ++ " ready\n"
    ∧ (nestedInt64 depEx ["status", "replicas"] = none
        → getNestedInt64 depEx ["status", "replicas"] = 0)
    ∧ deploymentDetailReplicaLine depEx
        ∈ DeploymentFormatter.FormatResourceChunks depEx
    ∧ deploymentListReplicaLine depEx
      = "    Replicas: "
        ++ toString (getNestedInt64 depEx ["status", "availableReplicas"])
        ++ " available / "
        ++ toString (getNestedInt64 depEx ["status", "replicas"])
        ++ " total / "
        ++ toString (getNestedInt64 depEx ["status", "updatedReplicas"])
        ++ " updated\n"
    ∧ deploymentListReplicaLine depEx
        ∈ DeploymentFormatter.FormatResourceListChunks [depEx] :=
  C4_deployment_replicas_amended depEx [depEx] (List.mem_singleton.2 rfl)

/-! ## C5 -/

/-- A document of an unregistered kind, cluster-scoped (empty namespace),
with a `spec` subtree and no labels. -/
def widgetEx : UObj :=
  [("kind", .str "Widget"),
   ("metadata", .obj [("name", .str "w1"),
     ("creationTimestamp", .str "2024-01-01T00:00:00Z")]),
   ("spec", .obj [("size", .int 1)])]

/-- A registry knowing only the Pod kind. -/
def regPodOnly : Registry :=
  [("Pod", ⟨PodFormatter.FormatResource, PodFormatter.FormatResourceList⟩)]

/-- Counterexample to C5: for a kind with no registered formatter the
registry falls back to `genericResourceFormatter`, whose output on a
cluster-scoped document with a `spec` subtree carries neither a
cluster-wide marker nor any dump of the `spec` keys — those appear only
in the separate GVR-dispatched fallback `formatGenericResource`. -/
theorem C5_generic_fallback_counterexample :
    assocFind regPodOnly (getKind widgetEx) = none
    ∧ FormatterRegistry.FormatResource regPodOnly widgetEx
        = genericResourceFormatter widgetEx
    ∧ strHasSub (genericResourceFormatter widgetEx) "Kind: Widget"
    ∧ getNamespace widgetEx = ""
    ∧ (nestedMap widgetEx ["spec"]).isSome = true
    ∧ ¬strHasSub (genericResourceFormatter widgetEx) "Cluster"
    ∧ ¬strHasSub (genericResourceFormatter widgetEx) "Spec"
    ∧ ¬strHasSub (genericResourceFormatter widgetEx) "size"
    ∧ strHasSub (formatGenericResource widgetEx "widgets") "Cluster-wide"
    ∧ strHasSub (formatGenericResource widgetEx "widgets") "Spec:"
    ∧ strHasSub (formatGenericResource widgetEx "widgets") "size: 1" := by
  refine ⟨rfl, rfl, ?_⟩
  set_option maxRecDepth 10000 in decide

/-- C5 as amended: the declared-kind fallback (`genericResourceFormatter`)
renders kind, name, creation time, the namespace line only when the
namespace is non-empty (and no marker otherwise), and the labels section
only when labels exist; the one-level `spec`/`status` dumps and the
`Scope: Cluster-wide` marker belong to the GVR-dispatched fallback
`formatGenericResource`, which titles the output by the plural resource
name rather than the declared kind. -/
theorem C5_generic_fallback_amended (reg : Registry) (o : UObj)
    (plural : String) (h : assocFind reg (getKind o) = none) :
    FormatterRegistry.FormatResource reg o = genericResourceFormatter o
    ∧ ("Kind: " ++ getKind o ++ "\n") ∈ genericResourceFormatterChunks o
    ∧ ("Name: " ++ getName o ++ "\n") ∈ genericResourceFormatterChunks o
    ∧ ("Created: " ++ formatCreation o ++ "\n")
        ∈ genericResourceFormatterChunks o
    ∧ (getNamespace o ≠ ""
        → ("Namespace: " ++ getNamespace o ++ "\n")
            ∈ genericResourceFormatterChunks o)
    ∧ (getLabels o ≠ [] → "\nLabels:\n" ∈ genericResourceFormatterChunks o)
    ∧ ((nestedMap o ["spec"]).isSome
        → "\nSpec:\n" ∈ formatGenericResourceChunks o plural)
    ∧ ((nestedMap o ["status"]).isSome
        → "\nStatus:\n" ∈ formatGenericResourceChunks o plural)
    ∧ (getNamespace o = ""
        → "Scope: Cluster-wide\n" ∈ formatGenericResourceChunks o plural)
    ∧ (goTitle plural ++ ": " ++ getName o ++ "\n")
        ∈ formatGenericResourceChunks o plural := by
  refine ⟨by simp [FormatterRegistry.FormatResource, h], ?_, ?_, ?_, ?_, ?_,
    ?_, ?_, ?_, ?_⟩
  · simp [genericResourceFormatterChunks]
  · simp [genericResourceFormatterChunks]
  · simp [genericResourceFormatterChunks]
  · intro hns
    simp [genericResourceFormatterChunks, hns]
  · intro hl
    simp [genericResourceFormatterChunks, hl]
  · intro hs
    rcases hspec : nestedMap o ["spec"] with _ | spec
    · rw [hspec] at hs
      simp at hs
    · simp [formatGenericResourceChunks, hspec]
  · intro hs
    rcases hstat : nestedMap o ["status"] with _ | st
    · rw [hstat] at hs
      simp at hs
    · simp [formatGenericResourceChunks, hstat]
  · intro hns
    simp [formatGenericResourceChunks, hns]
  · simp [formatGenericResourceChunks]

/-- Witness for C5's amended theorem on the Widget document. -/
theorem C5_generic_fallback_amended_witness :
    FormatterRegistry.FormatResource regPodOnly widgetEx
        = genericResourceFormatter widgetEx
    ∧ ("Kind: " ++ getKind widgetEx ++ "\n")
        ∈ genericResourceFormatterChunks widgetEx
    ∧ ("Name: " ++ getName widgetEx ++ "\n")
        ∈ genericResourceFormatterChunks widgetEx
    ∧ ("Created: " ++ formatCreation widgetEx ++ "\n")
        ∈ genericResourceFormatterChunks widgetEx
    ∧ (getNamespace widgetEx ≠ ""
        → ("Namespace: " ++ getNamespace widgetEx ++ "\n")
            ∈ genericResourceFormatterChunks widgetEx)
    ∧ (getLabels widgetEx ≠ []
        → "\nLabels:\n" ∈ genericResourceFormatterChunks widgetEx)
    ∧ ((nestedMap widgetEx ["spec"]).isSome
        → "\nSpec:\n" ∈ formatGenericResourceChunks widgetEx "widgets")
    ∧ ((nestedMap widgetEx ["status"]).isSome
        → "\nStatus:\n" ∈ formatGenericResourceChunks widgetEx "widgets")
    ∧ (getNamespace widgetEx = ""
        → "Scope: Cluster-wide\n"
            ∈ formatGenericResourceChunks widgetEx "widgets")
    ∧ (goTitle "widgets" ++ ": " ++ getName widgetEx ++ "\n")
        ∈ formatGenericResourceChunks widgetEx "widgets" :=
  C5_generic_fallback_amended regPodOnly widgetEx "widgets" rfl

/-! ## C6 -/

/-- A pod document whose two labels are enumerated app-first. -/
def podLblA : UObj :=
  [("kind", .str "Pod"),
   ("metadata", .obj [("name", .str "web-1"), ("namespace", .str "default"),
     ("creationTimestamp", .str "2024-01-01T00:00:00Z"),
     ("labels", .obj [("app", .str "web"), ("tier", .str "fe")])]),
   ("status", .obj [("phase", .str "Running")])]

/-- The same pod document with its labels enumerated tier-first: the same
Go map (same byte-for-byte document) under another iteration order. -/
def podLblB : UObj :=
  [("kind", .str "Pod"),
   ("metadata", .obj [("name", .str "web-1"), ("namespace", .str "default"),
     ("creationTimestamp", .str "2024-01-01T00:00:00Z"),
     ("labels", .obj [("tier", .str "fe"), ("app", .str "web")])]),
   ("status", .obj [("phase", .str "Running")])]

/-- Counterexample to C6: the two enumerations represent the same label
map of the same document (all envelope accessors agree and the label
lists are permutations of each other), yet `PodFormatter.FormatResource`
produces different text — Go iterates label maps in an unspecified order,
so two runs on a byte-for-byte identical document can disagree on the
ordering of the label lines. -/
theorem C6_renderOne_determinism_counterexample :
    (getLabels podLblA).Perm (getLabels podLblB)
    ∧ getName podLblA = getName podLblB
    ∧ getNamespace podLblA = getNamespace podLblB
    ∧ getKind podLblA = getKind podLblB
    ∧ podStatus podLblA = podStatus podLblB
    ∧ formatCreation podLblA = formatCreation podLblB
    ∧ PodFormatter.FormatResource podLblA ≠ PodFormatter.FormatResource podLblB
    := by
  refine ⟨?_, rfl, rfl, rfl, rfl, rfl, ?_⟩
  · have ha : getLabels podLblA = [("app", "web"), ("tier", "fe")] := rfl
    have hb : getLabels podLblB = [("tier", "fe"), ("app", "web")] := rfl
    rw [ha, hb]
    exact List.Perm.swap _ _ _
  · set_option maxRecDepth 10000 in decide

/-- C6 as amended: renderOne is a pure function of the document together
with the enumeration order of its string maps; permuting a map's
enumeration permutes the rendered key-value lines (so the multiset of
label lines is determined by the document even though their order is
not), and enumerations of at most one entry render identically. -/
theorem C6_renderOne_order_amended (ind : String)
    (L1 L2 : List (String × String)) (hp : L1.Perm L2) :
    (kvLines ind L1).Perm (kvLines ind L2)
    ∧ (L1.length ≤ 1 → kvLines ind L1 = kvLines ind L2) := by
  refine ⟨hp.map _, fun hlen => ?_⟩
  have hL : L1 = L2 := by
    cases L1 with
    | nil => exact (List.Perm.nil_eq hp).symm ▸ rfl
    | cons a rest =>
      cases rest with
      | nil => exact List.singleton_perm.1 hp
      | cons b rest' => simp at hlen
  rw [hL]

/-- Witness for C6's amended theorem on a two-entry permutation. -/
theorem C6_renderOne_order_amended_witness :
    (([("app", "web"), ("tier", "fe")] :
        List (String × String)).Perm [("tier", "fe"), ("app", "web")])
    ∧ ((kvLines "  " [("app", "web"), ("tier", "fe")]).Perm
        (kvLines "  " [("tier", "fe"), ("app", "web")])
       ∧ (([("app", "web"), ("tier", "fe")] :
            List (String × String)).length ≤ 1
          → kvLines "  " [("app", "web"), ("tier", "fe")]
              = kvLines "  " [("tier", "fe"), ("app", "web")])) :=
  ⟨List.Perm.swap _ _ _,
   C6_renderOne_order_amended "  " [("app", "web"), ("tier", "fe")]
     [("tier", "fe"), ("app", "web")] (List.Perm.swap _ _ _)⟩
